import Mathlib

/-
  Verification development for the ClaimGuard repository.

  Scores that the Python code holds as floats in the interval zero..one are
  modelled as rationals; the arithmetic of the aggregation rule (weighted
  average with re-normalisation over present signals) is exact in this model.
  The dashboard UI (src/app/ui/app.py) and the image-linking scripts
  (src/scripts/download_free_damage_images.py, src/scripts/link_custom_images.py,
  src/scripts/download_sample_images.py) are embedded from their source.  The Fraud Risk Aggregator, the Damage Cost
  Estimator and the Claim Lifecycle State Machine are imported by the
  repository but their modules (app.services, app.models.fraud_score, ...) are
  not part of the source tree; those components are modelled from the spec,
  marked as such on each definition.
-/

namespace ClaimGuard

/-- Risk level buckets of a FraudScore, per the data model. -/
inductive RiskLevel
  | LOW
  | MEDIUM
  | HIGH
  | CRITICAL
deriving DecidableEq

/-- Modelled from the spec: the Fraud Risk Aggregator module is not in the
source tree.  Risk level thresholds, inclusive lower bound: composite below
0.3 gives LOW, from 0.3 up to below 0.5 gives MEDIUM, from 0.5 up to below
0.75 gives HIGH, from 0.75 on gives CRITICAL. -/
def riskLevel (c : ℚ) : RiskLevel :=
  if c < 3/10 then .LOW
  else if c < 1/2 then .MEDIUM
  else if c < 3/4 then .HIGH
  else .CRITICAL

/-- The three component fraud signals, each independently nullable. -/
structure FraudSignals where
  ml : Option ℚ
  graph : Option ℚ
  pm : Option ℚ
deriving DecidableEq

/-- Modelled from the spec: fixed default weight of the ML signal. -/
def wML : ℚ := 1/2

/-- Modelled from the spec: fixed default weight of the graph signal. -/
def wGraph : ℚ := 3/10

/-- Modelled from the spec: fixed default weight of the pattern signal. -/
def wPM : ℚ := 1/5

/-- The list of weight and score pairs of the present signals only. -/
def presentPairs (s : FraudSignals) : List (ℚ × ℚ) :=
  (match s.ml with | some v => [(wML, v)] | none => []) ++
  (match s.graph with | some v => [(wGraph, v)] | none => []) ++
  (match s.pm with | some v => [(wPM, v)] | none => [])

/-- The scores of the present signals only. -/
def presentScores (s : FraudSignals) : List ℚ :=
  (presentPairs s).map Prod.snd

/-- Sum of the weights of the present signals. -/
def weightSum (s : FraudSignals) : ℚ :=
  ((presentPairs s).map Prod.fst).sum

/-- Weighted sum of the present signal scores. -/
def weightedSum (s : FraudSignals) : ℚ :=
  ((presentPairs s).map (fun p => p.1 * p.2)).sum

/-- Error taxonomy of the aggregation operation. -/
inductive AggregateError
  | InsufficientSignalError
deriving DecidableEq

/-- Aggregation result fields of a FraudScore (composite value and the
fields derived from it). -/
structure FraudScoreOut where
  composite : ℚ
  risk : RiskLevel
  requires_investigation : Bool
deriving DecidableEq

/-- True when some present component score is at least 0.9. -/
def anyStrongSignal (s : FraudSignals) : Bool :=
  (presentScores s).any (fun v => decide ((9:ℚ)/10 ≤ v))

/-- Modelled from the spec: the Fraud Risk Aggregator module is not in the
source tree.  Fails with InsufficientSignalError when all three signals are
absent; otherwise the composite is the weighted sum over present signals
divided by the sum of their weights, the risk level is derived from the
composite, and requires_investigation is true iff the risk level is HIGH or
CRITICAL or any individual present component score is at least 0.9. -/
def aggregate (s : FraudSignals) : Except AggregateError FraudScoreOut :=
  if s.ml.isNone && s.graph.isNone && s.pm.isNone then
    .error .InsufficientSignalError
  else
    let c := weightedSum s / weightSum s
    .ok { composite := c
          risk := riskLevel c
          requires_investigation :=
            (decide (riskLevel c = .HIGH) || decide (riskLevel c = .CRITICAL))
              || anyStrongSignal s }

/-- Claim processing statuses, per the state machine section of the spec. -/
inductive ClaimStatus
  | SUBMITTED
  | PROCESSING
  | UNDER_REVIEW
  | APPROVED
  | DENIED
  | CLOSED
  | WITHDRAWN
deriving DecidableEq

/-- The Claim attributes the state machine touches: the status, plus
immutable attributes carried along to express that a rejected transition
mutates nothing. -/
structure Claim where
  claim_number : String
  status : ClaimStatus
  estimated_damage : ℚ
  deductible : ℚ
deriving DecidableEq

/-- Error raised on an illegal transition attempt, naming the current state
and the rejected target. -/
inductive TransitionError
  | InvalidStateTransitionError (current : ClaimStatus) (target : ClaimStatus)
deriving DecidableEq

/-- Modelled from the spec: the Claim Lifecycle State Machine module is not
in the source tree.  Legality of a transition, given the current FraudScore
when one exists and, for human review decisions, the rationale string. -/
def transitionAllowed (current : ClaimStatus) (fs : Option FraudScoreOut)
    (rationale : Option String) (target : ClaimStatus) : Bool :=
  match current, target with
  | .SUBMITTED, .PROCESSING => true
  | .PROCESSING, .UNDER_REVIEW => true
  | .PROCESSING, .APPROVED =>
      match fs with
      | some f => !f.requires_investigation && decide (f.risk = .LOW)
      | none => false
  | .UNDER_REVIEW, .APPROVED =>
      match rationale with
      | some r => !r.isEmpty
      | none => false
  | .UNDER_REVIEW, .DENIED =>
      match rationale with
      | some r => !r.isEmpty
      | none => false
  | .APPROVED, .CLOSED => true
  | .DENIED, .CLOSED => true
  | .SUBMITTED, .WITHDRAWN => true
  | .PROCESSING, .WITHDRAWN => true
  | .UNDER_REVIEW, .WITHDRAWN => true
  | .APPROVED, .WITHDRAWN => true
  | .DENIED, .WITHDRAWN => true
  | _, _ => false

/-- Modelled from the spec: the Claim Lifecycle State Machine module is not
in the source tree.  A legal transition yields the claim with only its
status replaced; an illegal attempt fails with InvalidStateTransitionError
naming the current state and the rejected target, and no claim value is
produced (the claim is left unchanged). -/
def transition (c : Claim) (fs : Option FraudScoreOut)
    (rationale : Option String) (target : ClaimStatus) :
    Except TransitionError Claim :=
  if transitionAllowed c.status fs rationale target then
    .ok { c with status := target }
  else
    .error (.InvalidStateTransitionError c.status target)

/-
  Dashboard embedding, from src/app/ui/app.py.
-/

/-- A persisted claim row as the dashboard queries see it (app.py).  The
status is kept as the string SQLAlchemy compares against; estimated_damage
is a non-null column per the Claim data model. -/
structure ClaimRow where
  status : String
  estimated_damage : ℚ
deriving DecidableEq

/-- The database state the dashboard overview reads: the claims table and
the fraud_scores table (only the fraud_score column is consulted). -/
structure DBState where
  claims : List ClaimRow
  fraud_scores : List ℚ
deriving DecidableEq

/-- The Python runtime error raised by an unguarded division by zero. -/
inductive PyError
  | ZeroDivisionError
deriving DecidableEq

/-- The numbers interpolated into the overview markdown string by
get_claims_overview. -/
structure Overview where
  total_claims : Nat
  high_risk : Nat
  high_risk_pct : ℚ
  pending_review : Nat
  total_value : Nat
deriving DecidableEq

/-- From src/app/ui/app.py, get_claims_overview: counts all claims, counts
fraud scores at least 0.5 as high risk, counts claims with status
PROCESSING as pending, sets total_value to the row count of the
estimated_damage column query, and computes the high-risk percentage as
high_risk divided by total_claims — which raises ZeroDivisionError when the
claims table is empty. -/
def get_claims_overview (db : DBState) : Except PyError Overview :=
  let total_claims := db.claims.length
  let high_risk := (db.fraud_scores.filter (fun s => decide ((1:ℚ)/2 ≤ s))).length
  let pending_review := (db.claims.filter (fun c => c.status == "PROCESSING")).length
  let total_value := db.claims.length
  if total_claims = 0 then
    .error .ZeroDivisionError
  else
    .ok { total_claims := total_claims
          high_risk := high_risk
          high_risk_pct := (high_risk : ℚ) / (total_claims : ℚ) * 100
          pending_review := pending_review
          total_value := total_value }

/-- From src/app/ui/app.py, load_claims_data: the high_risk filter keeps
rows with fraud_score at least 0.5. -/
def dashboardHighRisk (score : ℚ) : Bool :=
  decide ((1:ℚ)/2 ≤ score)

/-- From src/app/ui/app.py, load_claims_data: the medium_risk filter keeps
rows with fraud_score at least 0.3 and below 0.5. -/
def dashboardMediumRisk (score : ℚ) : Bool :=
  decide ((3:ℚ)/10 ≤ score) && decide (score < (1:ℚ)/2)

/-- From src/app/ui/app.py, load_claims_data: the low_risk filter keeps
rows with fraud_score below 0.3. -/
def dashboardLowRisk (score : ℚ) : Bool :=
  decide (score < (3:ℚ)/10)

/-
  Damage assessment: dashboard vision path and the cost estimator.
-/

/-- The structured result of the upstream vision call, as consumed by
analyze_damage_image in src/app/ui/app.py (a dict with a success flag,
assessment fields and an error string). -/
structure VisionResult where
  success : Bool
  damage_types : List String
  severity : String
  severity_score : ℚ
  affected_areas : List String
  cost_min : ℚ
  cost_max : ℚ
  notes : String
  error : String
deriving DecidableEq

/-- The possible outcomes of analyze_damage_image: the prompt shown when no
image was uploaded, a rendered assessment with its fields, the failure
message for a non-success result, or the message for a raised exception. -/
inductive AnalyzeOutcome
  | promptUpload
  | assessment (damage_types : List String) (severity : String)
      (severity_score : ℚ) (affected_areas : List String)
      (cost_min cost_max : ℚ) (notes : String)
  | failureMessage (err : String)
  | exceptionMessage (msg : String)
deriving DecidableEq

/-- From src/app/ui/app.py, analyze_damage_image: with no image it asks for
an upload; a raised exception (modelled as the error side of the input)
yields only an error message; a result with success false yields only the
analysis-failed message with the result error; only a result with success
true renders assessment fields. -/
def analyze_damage_image (image : Option (Except String VisionResult)) :
    AnalyzeOutcome :=
  match image with
  | none => .promptUpload
  | some (.error e) => .exceptionMessage e
  | some (.ok r) =>
      if r.success then
        .assessment r.damage_types r.severity r.severity_score
          r.affected_areas r.cost_min r.cost_max r.notes
      else
        .failureMessage r.error

/-- Damage severity buckets. -/
inductive DamageSeverity
  | MINOR
  | MODERATE
  | MAJOR
deriving DecidableEq

/-- Damage type enumeration, from the cycle used by link_to_claims in
src/scripts/download_free_damage_images.py. -/
inductive DamageType
  | DENT
  | SCRATCH
  | CRACK
  | BROKEN
  | CRUSHED
deriving DecidableEq

/-- Modelled from the spec: the Damage Cost Estimator module is not in the
source tree.  Severity bucket thresholds: MINOR below 40, MODERATE from 40
up to below 70, MAJOR from 70 on. -/
def severityBucket (score : ℚ) : DamageSeverity :=
  if score < 40 then .MINOR
  else if score < 70 then .MODERATE
  else .MAJOR

/-- Base cost range per severity bucket; the same table appears literally
in link_to_claims (src/scripts/download_free_damage_images.py). -/
def cost_ranges : DamageSeverity → ℚ × ℚ
  | .MINOR => (500, 2000)
  | .MODERATE => (2000, 8000)
  | .MAJOR => (8000, 20000)

/-- Modelled from the spec: scaling multiplier derived from the affected
area count — minimal (one) at a single area, growing with each further
distinct area, capped at a ceiling of two. -/
def areaMultiplier (areas : List String) : ℚ :=
  min (1 + (areas.dedup.length - 1 : ℚ) / 10) 2

/-- Error taxonomy of the Damage Cost Estimator. -/
inductive EstimateError
  | InvalidVisionResultError
  | VisionAnalysisFailed
deriving DecidableEq

/-- The DamageAssessment fields produced by the estimator. -/
structure EstimateOut where
  severity : DamageSeverity
  severity_score : ℚ
  cost_min : ℚ
  cost_max : ℚ
deriving DecidableEq

/-- Modelled from the spec: the Damage Cost Estimator module is not in the
source tree.  A failed upstream vision call reports VisionAnalysisFailed
and fabricates no assessment; a severity score out of zero..100 or an empty
damage-type list on a successful result is InvalidVisionResultError;
otherwise the severity bucket comes from the score, and the bucket cost
range is scaled by the affected-area multiplier. -/
def estimate (r : VisionResult) : Except EstimateError EstimateOut :=
  if !r.success then
    .error .VisionAnalysisFailed
  else if r.severity_score < 0 || 100 < r.severity_score || r.damage_types.isEmpty then
    .error .InvalidVisionResultError
  else
    let bucket := severityBucket r.severity_score
    let range := cost_ranges bucket
    let m := areaMultiplier r.affected_areas
    .ok { severity := bucket
          severity_score := r.severity_score
          cost_min := m * range.1
          cost_max := m * range.2 }

/-
  DamageAssessment records written by the linking scripts.
-/

/-- The DamageAssessment fields relevant to its invariants, as constructed
by the linking scripts. -/
structure DamageAssessmentRec where
  damage_type : DamageType
  severity : DamageSeverity
  severity_score : ℚ
  estimated_cost_min : ℚ
  estimated_cost_max : ℚ
  confidence_score : ℚ
  reviewed : Bool
deriving DecidableEq

/-- The damage-type cycle of link_to_claims
(src/scripts/download_free_damage_images.py). -/
def damageTypesCycle : List DamageType :=
  [.DENT, .SCRATCH, .CRACK, .BROKEN, .CRUSHED]

/-- The severity cycle of link_to_claims. -/
def severitiesCycle : List DamageSeverity :=
  [.MINOR, .MODERATE, .MAJOR]

/-- From src/scripts/download_free_damage_images.py, link_to_claims: the
assessment written for the pair at position idx — damage type and severity
assigned cyclically, severity_score equal to 30 plus idx modulo 60, and the
cost range looked up from the table by the assigned severity. -/
def linkToClaimsAssessment (idx : Nat) : DamageAssessmentRec :=
  let severity := severitiesCycle.getD (idx % 3) .MINOR
  { damage_type := damageTypesCycle.getD (idx % 5) .DENT
    severity := severity
    severity_score := (30 + idx % 60 : ℕ)
    estimated_cost_min := (cost_ranges severity).1
    estimated_cost_max := (cost_ranges severity).2
    confidence_score := 0
    reviewed := false }

/-- From src/scripts/link_custom_images.py, link_custom_images: every
linked image gets the same assessment — damage type DENT, severity
MODERATE, severity_score 50, cost range zero to zero. -/
def linkCustomAssessment : DamageAssessmentRec :=
  { damage_type := .DENT
    severity := .MODERATE
    severity_score := 50
    estimated_cost_min := 0
    estimated_cost_max := 0
    confidence_score := 0
    reviewed := false }

/-- From src/scripts/download_sample_images.py, link_images_to_claims:
every linked image gets the same assessment — damage type DENT, severity
MODERATE, severity_score 60, cost range 2000 to 5000. -/
def linkSampleAssessment : DamageAssessmentRec :=
  { damage_type := .DENT
    severity := .MODERATE
    severity_score := 60
    estimated_cost_min := 2000
    estimated_cost_max := 5000
    confidence_score := 0
    reviewed := false }

/-- The spec invariant that an assessment severity_score lies in the bucket
matching its severity field. -/
def bucketMatches (a : DamageAssessmentRec) : Prop :=
  severityBucket a.severity_score = a.severity

instance (a : DamageAssessmentRec) : Decidable (bucketMatches a) := by
  unfold bucketMatches
  infer_instance

/-- The spec invariant on assessment cost bounds: both non-negative and min
at most max. -/
def costInvariant (a : DamageAssessmentRec) : Prop :=
  0 ≤ a.estimated_cost_min ∧ a.estimated_cost_min ≤ a.estimated_cost_max

instance (a : DamageAssessmentRec) : Decidable (costInvariant a) := by
  unfold costInvariant
  infer_instance

/-
  Concrete inputs used by witnesses and examples.
-/

/-- A vision result with severity score 85 and a single affected area. -/
def vrMajor85 : VisionResult :=
  { success := true
    damage_types := ["dent"]
    severity := "major"
    severity_score := 85
    affected_areas := ["front_bumper"]
    cost_min := 0
    cost_max := 0
    notes := ""
    error := "" }

/-- The estimator output on vrMajor85. -/
def estMajor85 : EstimateOut :=
  { severity := .MAJOR
    severity_score := 85
    cost_min := 8000
    cost_max := 20000 }

/-- A vision result whose upstream call failed. -/
def vrFailed : VisionResult :=
  { success := false
    damage_types := []
    severity := ""
    severity_score := 0
    affected_areas := []
    cost_min := 0
    cost_max := 0
    notes := ""
    error := "upstream timeout" }

/-- Signals with only a strong ML score present. -/
def sigStrong : FraudSignals := { ml := some (9/10), graph := none, pm := none }

/-- The aggregation output on sigStrong. -/
def outStrong : FraudScoreOut :=
  { composite := 9/10, risk := .CRITICAL, requires_investigation := true }

/-- A claim sitting in PROCESSING. -/
def claimProcessing : Claim :=
  { claim_number := "CLM-2024-000001"
    status := .PROCESSING
    estimated_damage := 1000
    deductible := 100 }

/-- A database state with no claims and no fraud scores. -/
def dbEmpty : DBState := { claims := [], fraud_scores := [] }

/-- A database state with a single claim of estimated damage 5. -/
def dbOne : DBState :=
  { claims := [{ status := "SUBMITTED", estimated_damage := 5 }], fraud_scores := [] }

/-
  Theorems.
-/

/-- Claim C5: aggregate fails with InsufficientSignalError exactly when all
three component signals are absent, and on that failure no FraudScore value
is produced. -/
theorem aggregate_insufficient_signal_iff (s : FraudSignals) :
    (aggregate s = .error .InsufficientSignalError ↔
      s.ml = none ∧ s.graph = none ∧ s.pm = none) ∧
    ∀ out : FraudScoreOut,
      aggregate s = .error .InsufficientSignalError → aggregate s ≠ .ok out := by
  constructor
  · rcases s with ⟨_ | v, _ | w, _ | u⟩ <;> simp [aggregate]
  · intro out he hok
    rw [he] at hok
    exact Except.noConfusion hok

/-- Witness for claim C5 at the all-absent signal triple. -/
theorem aggregate_insufficient_signal_iff_witness :
    aggregate { ml := none, graph := none, pm := none } =
      .error .InsufficientSignalError :=
  (aggregate_insufficient_signal_iff ⟨none, none, none⟩).1.mpr ⟨rfl, rfl, rfl⟩

/-- Claim C9: on a database state whose claims table is empty,
get_claims_overview raises ZeroDivisionError and returns no overview. -/
theorem overview_empty_raises_zero_division (db : DBState)
    (h : db.claims = []) :
    get_claims_overview db = .error .ZeroDivisionError ∧
    ∀ o : Overview, get_claims_overview db ≠ .ok o := by
  constructor
  · simp [get_claims_overview, h]
  · intro o hok
    simp [get_claims_overview, h] at hok

/-- Witness for claim C9 at the empty database state. -/
theorem overview_empty_raises_zero_division_witness :
    get_claims_overview dbEmpty = .error .ZeroDivisionError ∧
    ∀ o : Overview, get_claims_overview dbEmpty ≠ .ok o :=
  overview_empty_raises_zero_division dbEmpty rfl

/-- Claim C10: on every database state with at least one claim, the
total_value figure of get_claims_overview equals the number of claim rows,
and there is a state where that figure differs from the sum of the
estimated damages. -/
theorem overview_total_value_counts_rows :
    (∀ db : DBState, 1 ≤ db.claims.length →
      ∃ o : Overview, get_claims_overview db = .ok o ∧
        o.total_value = db.claims.length) ∧
    ∃ db : DBState, ∃ o : Overview, get_claims_overview db = .ok o ∧
      (o.total_value : ℚ) ≠ (db.claims.map ClaimRow.estimated_damage).sum := by
  constructor
  · intro db h
    have hne : ¬ db.claims.length = 0 := by omega
    simp only [get_claims_overview]
    rw [if_neg hne]
    exact ⟨_, rfl, rfl⟩
  · refine ⟨dbOne, { total_claims := 1, high_risk := 0, high_risk_pct := 0,
                     pending_review := 0, total_value := 1 }, ?_, by norm_num [dbOne]⟩
    simp [get_claims_overview, dbOne]

/-- Witness for claim C10 at a one-claim database state. -/
theorem overview_total_value_counts_rows_witness :
    ∃ o : Overview, get_claims_overview dbOne = .ok o ∧
      o.total_value = dbOne.claims.length :=
  overview_total_value_counts_rows.1 dbOne (by decide)

/-- Claim C2: the risk level of a composite score is LOW below 0.3, MEDIUM
from 0.3 up to below 0.5, HIGH from 0.5 up to below 0.75, CRITICAL from
0.75 on, and the dashboard filters of load_claims_data bucket scores in
agreement with these boundaries, the high_risk filter capturing exactly the
HIGH and CRITICAL levels. -/
theorem risk_level_thresholds_dashboard (c : ℚ) :
    (riskLevel c = .LOW ↔ c < 3/10) ∧
    (riskLevel c = .MEDIUM ↔ 3/10 ≤ c ∧ c < 1/2) ∧
    (riskLevel c = .HIGH ↔ 1/2 ≤ c ∧ c < 3/4) ∧
    (riskLevel c = .CRITICAL ↔ 3/4 ≤ c) ∧
    (dashboardHighRisk c = true ↔ (riskLevel c = .HIGH ∨ riskLevel c = .CRITICAL)) ∧
    (dashboardMediumRisk c = true ↔ riskLevel c = .MEDIUM) ∧
    (dashboardLowRisk c = true ↔ riskLevel c = .LOW) := by
  unfold riskLevel dashboardHighRisk dashboardMediumRisk dashboardLowRisk
  split_ifs with h1 h2 h3 <;> simp_all
  all_goals have hinv : (2:ℚ)⁻¹ = 1/2 := (by norm_num)
  all_goals repeat' apply And.intro
  all_goals
    first
    | linarith [hinv]
    | (intro h
       linarith [hinv])

/-- Claim C6: a vision result with success false makes analyze_damage_image
produce only the analysis-failed message and never an assessment, a raised
exception produces only the exception message, and the estimator reports
VisionAnalysisFailed without fabricating an assessment. -/
theorem analyze_damage_failure_no_assessment (r : VisionResult)
    (h : r.success = false) :
    (analyze_damage_image (some (.ok r)) = .failureMessage r.error ∧
      ∀ dts sev ss aas cmin cmax nts,
        analyze_damage_image (some (.ok r)) ≠
          .assessment dts sev ss aas cmin cmax nts) ∧
    (∀ e : String, analyze_damage_image (some (.error e)) = .exceptionMessage e) ∧
    estimate r = .error .VisionAnalysisFailed := by
  refine ⟨⟨?_, ?_⟩, ?_, ?_⟩ <;> simp [analyze_damage_image, estimate, h]

/-- Witness for claim C6 at a concrete failed vision result. -/
theorem analyze_damage_failure_no_assessment_witness :
    (analyze_damage_image (some (.ok vrFailed)) = .failureMessage vrFailed.error ∧
      ∀ dts sev ss aas cmin cmax nts,
        analyze_damage_image (some (.ok vrFailed)) ≠
          .assessment dts sev ss aas cmin cmax nts) ∧
    (∀ e : String, analyze_damage_image (some (.error e)) = .exceptionMessage e) ∧
    estimate vrFailed = .error .VisionAnalysisFailed :=
  analyze_damage_failure_no_assessment vrFailed rfl

/-- Claim C7: severity buckets follow the thresholds MINOR below 40,
MODERATE from 40 up to below 70, MAJOR from 70 on; the cost table maps
MINOR to 500..2000, MODERATE to 2000..8000, MAJOR to 8000..20000; and on
severity score 85 with one affected area the estimator yields MAJOR with
the MAJOR bucket range unscaled. -/
theorem estimator_severity_cost_mapping :
    (∀ s : ℚ, (severityBucket s = .MINOR ↔ s < 40) ∧
      (severityBucket s = .MODERATE ↔ 40 ≤ s ∧ s < 70) ∧
      (severityBucket s = .MAJOR ↔ 70 ≤ s)) ∧
    cost_ranges .MINOR = (500, 2000) ∧
    cost_ranges .MODERATE = (2000, 8000) ∧
    cost_ranges .MAJOR = (8000, 20000) ∧
    estimate vrMajor85 = .ok { severity := .MAJOR, severity_score := 85,
                               cost_min := 8000, cost_max := 20000 } := by
  refine ⟨?_, rfl, rfl, rfl, ?_⟩
  · intro s
    unfold severityBucket
    split_ifs with h1 h2 <;> simp_all
    all_goals linarith
  · simp [estimate, vrMajor85, severityBucket, cost_ranges, areaMultiplier, List.dedup]
    norm_num

/-- Claim C8 counterexample: the assessment written by link_to_claims at
index 1 has severity MODERATE but severity_score 31, which lies in the
MINOR bucket, so the bucket-matching invariant fails on it. -/
theorem linkToClaims_bucket_mismatch :
    ¬ bucketMatches (linkToClaimsAssessment 1) := by decide

/-- Claim C8 amended: every DamageAssessment created by an operation of the
system satisfies the cost invariant (cost_min at most cost_max, both
non-negative) — the assessments of link_to_claims, link_custom_images and
link_images_to_claims, and every estimator output; the severity_score lies
in the bucket matching the severity field for the link_custom_images and
link_images_to_claims assessments and for every estimator output, but not
for link_to_claims, whose cyclic severity is independent of its
severity_score. -/
theorem link_assessments_invariants (idx : Nat) :
    (costInvariant (linkToClaimsAssessment idx) ∧
     costInvariant linkCustomAssessment ∧
     costInvariant linkSampleAssessment) ∧
    (bucketMatches linkCustomAssessment ∧
     bucketMatches linkSampleAssessment) ∧
    ∀ (r : VisionResult) (out : EstimateOut), estimate r = .ok out →
      0 ≤ out.cost_min ∧ out.cost_min ≤ out.cost_max ∧
      severityBucket out.severity_score = out.severity := by
  refine ⟨⟨?_, by decide, by decide⟩, ⟨by decide, by decide⟩, ?_⟩
  · have h3 : idx % 3 = 0 ∨ idx % 3 = 1 ∨ idx % 3 = 2 := by omega
    rcases h3 with h | h | h <;>
      simp [costInvariant, linkToClaimsAssessment, severitiesCycle, cost_ranges, h] <;>
      norm_num
  · intro r out hok
    unfold estimate at hok
    split_ifs at hok
    simp only [Except.ok.injEq] at hok
    subst hok
    have hm : 0 < areaMultiplier r.affected_areas := by
      unfold areaMultiplier
      rw [lt_min_iff]
      constructor
      · have h0 : (0:ℚ) ≤ (r.affected_areas.dedup.length : ℚ) := Nat.cast_nonneg _
        linarith
      · norm_num
    refine ⟨?_, ?_, rfl⟩
    · cases hb : severityBucket r.severity_score <;>
        simp only [cost_ranges] <;>
        exact mul_nonneg hm.le (by norm_num)
    · cases hb : severityBucket r.severity_score <;>
        simp only [cost_ranges] <;>
        exact mul_le_mul_of_nonneg_left (by norm_num) hm.le

/-- Witness for the amended claim C8: the estimator conjunct applied to the
severity-85 vision result and its output. -/
theorem link_assessments_invariants_witness :
    0 ≤ estMajor85.cost_min ∧ estMajor85.cost_min ≤ estMajor85.cost_max ∧
    severityBucket estMajor85.severity_score = estMajor85.severity :=
  (link_assessments_invariants 0).2.2 vrMajor85 estMajor85 (by
    simp [estimate, vrMajor85, estMajor85, severityBucket, cost_ranges,
      areaMultiplier, List.dedup]
    norm_num)

/-- Claim C3: for every aggregation result, requires_investigation holds
exactly when the derived risk level is HIGH or CRITICAL or some present
component score is at least 0.9, and any single present score at least 0.9
forces requires_investigation regardless of the composite. -/
theorem requires_investigation_characterization (s : FraudSignals)
    (out : FraudScoreOut) (h : aggregate s = .ok out) :
    (out.requires_investigation = true ↔
      (out.risk = .HIGH ∨ out.risk = .CRITICAL ∨
        ∃ v ∈ presentScores s, (9:ℚ)/10 ≤ v)) ∧
    ∀ v ∈ presentScores s, (9:ℚ)/10 ≤ v → out.requires_investigation = true := by
  unfold aggregate at h
  split at h
  · exact absurd h (by simp)
  · simp only [Except.ok.injEq] at h
    subst h
    constructor
    · simp [anyStrongSignal, List.any_eq_true, decide_eq_true_iff, Bool.or_eq_true,
        or_assoc]
    · intro v hv hge
      simp [anyStrongSignal, List.any_eq_true, decide_eq_true_iff, Bool.or_eq_true]
      first
      | exact ⟨v, hv, hge⟩
      | (right
         exact ⟨v, hv, hge⟩)

/-- Witness for claim C3 at a single strong ML signal. -/
theorem requires_investigation_characterization_witness :
    ((outStrong.requires_investigation = true ↔
      (outStrong.risk = .HIGH ∨ outStrong.risk = .CRITICAL ∨
        ∃ v ∈ presentScores sigStrong, (9:ℚ)/10 ≤ v)) ∧
    ∀ v ∈ presentScores sigStrong, (9:ℚ)/10 ≤ v →
      outStrong.requires_investigation = true) :=
  requires_investigation_characterization sigStrong outStrong (by
    simp [aggregate, sigStrong, outStrong, weightedSum, weightSum, presentPairs,
      wML, riskLevel, anyStrongSignal, presentScores]
    norm_num)

/-- Claim C4: from PROCESSING the transition to APPROVED succeeds exactly
when requires_investigation is false and the risk level is LOW, fails with
InvalidStateTransitionError when the risk level is HIGH or CRITICAL, and
every illegal attempt from any state fails with an error naming the current
state and the rejected target while producing no mutated claim. -/
theorem processing_approved_and_illegal_transitions (c : Claim)
    (f : FraudScoreOut) (r : Option String) (target : ClaimStatus) :
    (c.status = .PROCESSING →
      (transition c (some f) r .APPROVED = .ok { c with status := .APPROVED } ↔
        f.requires_investigation = false ∧ f.risk = .LOW) ∧
      ((f.risk = .HIGH ∨ f.risk = .CRITICAL) →
        transition c (some f) r .APPROVED =
          .error (.InvalidStateTransitionError .PROCESSING .APPROVED))) ∧
    (transitionAllowed c.status (some f) r target = false →
      transition c (some f) r target =
        .error (.InvalidStateTransitionError c.status target) ∧
      ∀ c2 : Claim, transition c (some f) r target ≠ .ok c2) := by
  constructor
  · intro hp
    constructor
    · unfold transition transitionAllowed
      rw [hp]
      cases hf : (!f.requires_investigation && decide (f.risk = RiskLevel.LOW)) <;>
        simp_all
    · intro hr
      have hne : ¬ f.risk = .LOW := by
        rcases hr with h | h <;> rw [h] <;> intro hcon <;> exact RiskLevel.noConfusion hcon
      unfold transition transitionAllowed
      rw [hp]
      simp [hne]
  · intro hall
    constructor
    · simp [transition, hall]
    · intro c2 hok
      simp [transition, hall] at hok

/-- Witness for claim C4: a PROCESSING claim with a CRITICAL fraud score is
refused the fast path to APPROVED. -/
theorem processing_approved_and_illegal_transitions_witness :
    transition claimProcessing (some outStrong) none .APPROVED =
      .error (.InvalidStateTransitionError .PROCESSING .APPROVED) :=
  ((processing_approved_and_illegal_transitions claimProcessing outStrong
      none .APPROVED).1 rfl).2 (Or.inr rfl)

/-- A lower bound on a ratio from a lower bound on the numerator. -/
lemma le_div_of_mul_le (S W m : ℚ) (hW : 0 < W) (h : m * W ≤ S) : m ≤ S / W := by
  rw [le_div_iff₀ hW]
  exact h

/-- An upper bound on a ratio from an upper bound on the numerator. -/
lemma div_le_of_le_mul (S W M : ℚ) (hW : 0 < W) (h : S ≤ M * W) : S / W ≤ M := by
  rw [div_le_iff₀ hW]
  exact h

/-- Claim C1: whenever aggregation succeeds on signals whose present scores
lie in the unit interval, the composite equals the weighted sum over the
present signals divided by the sum of their weights, it sits between every
lower and upper bound of the present scores (hence between their minimum
and maximum), and it lies in the unit interval. -/
theorem aggregate_weighted_average_bounds (s : FraudSignals)
    (out : FraudScoreOut) (hok : aggregate s = .ok out)
    (hml : ∀ v, s.ml = some v → 0 ≤ v ∧ v ≤ 1)
    (hg : ∀ v, s.graph = some v → 0 ≤ v ∧ v ≤ 1)
    (hp : ∀ v, s.pm = some v → 0 ≤ v ∧ v ≤ 1) :
    out.composite = weightedSum s / weightSum s ∧
    (∀ m : ℚ, (∀ v ∈ presentScores s, m ≤ v) → m ≤ out.composite) ∧
    (∀ M : ℚ, (∀ v ∈ presentScores s, v ≤ M) → out.composite ≤ M) ∧
    0 ≤ out.composite ∧ out.composite ≤ 1 := by
  have hcomp : out.composite = weightedSum s / weightSum s := by
    unfold aggregate at hok
    split at hok
    · exact absurd hok (by simp)
    · simp only [Except.ok.injEq] at hok
      rw [← hok]
  have hne : ¬(s.ml.isNone && s.graph.isNone && s.pm.isNone) = true := by
    intro hcon
    unfold aggregate at hok
    rw [if_pos hcon] at hok
    exact Except.noConfusion hok
  have hlow : ∀ m : ℚ, (∀ v ∈ presentScores s, m ≤ v) →
      m ≤ weightedSum s / weightSum s := by
    intro m hm
    rcases s with ⟨ml, g, p⟩
    rcases ml with _ | v <;> rcases g with _ | w <;> rcases p with _ | u <;>
      simp only [presentScores, presentPairs, weightedSum, weightSum,
        List.map_append, List.map_cons, List.map_nil, List.sum_append,
        List.sum_cons, List.sum_nil, List.mem_append, List.mem_cons,
        List.not_mem_nil, or_false, false_or, add_zero, zero_add,
        List.append_nil, List.nil_append, or_assoc, forall_eq_or_imp, forall_eq,
        wML, wGraph, wPM] at hm ⊢
    · exact absurd hok (by simp [aggregate])
    all_goals
      (apply le_div_of_mul_le _ _ _ (by norm_num)
       linarith [hm])
  have hup : ∀ M : ℚ, (∀ v ∈ presentScores s, v ≤ M) →
      weightedSum s / weightSum s ≤ M := by
    intro M hM
    rcases s with ⟨ml, g, p⟩
    rcases ml with _ | v <;> rcases g with _ | w <;> rcases p with _ | u <;>
      simp only [presentScores, presentPairs, weightedSum, weightSum,
        List.map_append, List.map_cons, List.map_nil, List.sum_append,
        List.sum_cons, List.sum_nil, List.mem_append, List.mem_cons,
        List.not_mem_nil, or_false, false_or, add_zero, zero_add,
        List.append_nil, List.nil_append, or_assoc, forall_eq_or_imp, forall_eq,
        wML, wGraph, wPM] at hM ⊢
    · exact absurd hok (by simp [aggregate])
    all_goals
      (apply div_le_of_le_mul _ _ _ (by norm_num)
       linarith [hM])
  have hin : ∀ x ∈ presentScores s, 0 ≤ x ∧ x ≤ 1 := by
    intro x hx
    rcases s with ⟨ml, g, p⟩
    rcases ml with _ | v <;> rcases g with _ | w <;> rcases p with _ | u <;>
      simp_all [presentScores, presentPairs]
    all_goals try rcases hx with rfl | rfl | rfl
    all_goals
      first
      | exact hml
      | exact hg
      | exact hp
  rw [hcomp]
  refine ⟨rfl, hlow, hup, ?_, ?_⟩
  · exact hlow 0 (fun v hv => (hin v hv).1)
  · exact hup 1 (fun v hv => (hin v hv).2)

/-- Witness for claim C1 at a single present ML signal of 0.9. -/
theorem aggregate_weighted_average_bounds_witness :
    outStrong.composite = weightedSum sigStrong / weightSum sigStrong ∧
    (∀ m : ℚ, (∀ v ∈ presentScores sigStrong, m ≤ v) → m ≤ outStrong.composite) ∧
    (∀ M : ℚ, (∀ v ∈ presentScores sigStrong, v ≤ M) → outStrong.composite ≤ M) ∧
    0 ≤ outStrong.composite ∧ outStrong.composite ≤ 1 :=
  aggregate_weighted_average_bounds sigStrong outStrong
    (by
      simp [aggregate, sigStrong, outStrong, weightedSum, weightSum, presentPairs,
        wML, riskLevel, anyStrongSignal, presentScores]
      norm_num)
    (by
      intro v hv
      simp only [sigStrong, Option.some.injEq] at hv
      rcases hv with rfl
      norm_num)
    (by simp [sigStrong])
    (by simp [sigStrong])

end ClaimGuard
